import Mathlib

/-!
Verification of the Pyvoparation core against its specification.

The definitions below embed `src/pervaporation/pervaporation.py`,
`src/optimizer/optimizer.py` and the data they act on. Python floats are
modelled by rationals; Python's `ZeroDivisionError` by an explicit error
result. A `Composition` (its class lives in the `mixture` module, which is
absent from `src`) is modelled per the spec's data model by its
reference-component fraction `p`, the complementary fraction being `1 - p`.
External collaborators (the NRTL partial-pressure provider, the scipy
Powell minimiser) appear as function parameters; where a claim needs their
behaviour, a definition marked "Modelled from the spec" follows the spec's
words.
-/

namespace Pyvap

/-- Error outcomes of the embedded Python code. Only `zeroDivisionError` can
actually be produced by the source; `degenerateFlux` and `insufficientFeed`
are the error kinds named by the specification's error-handling design,
included so that theorems can state whether the source signals them. -/
inductive PyError where
  | zeroDivisionError
  | degenerateFlux
  | insufficientFeed
  deriving DecidableEq

/-- Result of an embedded Python computation: a value, or a raised error. -/
inductive PyResult (α : Type) where
  | ok (a : α)
  | error (e : PyError)
  deriving DecidableEq

/-- Map over the value of a `PyResult`. -/
def PyResult.map {α β : Type} (f : α → β) : PyResult α → PyResult β
  | .ok a => .ok (f a)
  | .error e => .error e

/-- Python float division: raises `ZeroDivisionError` on a zero denominator. -/
def pyDiv (a b : ℚ) : PyResult ℚ :=
  if b = 0 then .error .zeroDivisionError else .ok (a / b)

/-- Absolute value written out explicitly (`numpy.absolute`). -/
def qabs (a : ℚ) : ℚ := if a < 0 then -a else a

/-! ## Flux solver (pervaporation.py) -/

/-- Embeds `_get_permeate_composition_from_fluxes`
(src/pervaporation/pervaporation.py lines 13-19): the permeate composition
is the first component's flux over the total flux. The division is
unguarded in the source. -/
def get_permeate_composition_from_fluxes (fluxes : ℚ × ℚ) : PyResult ℚ :=
  pyDiv fluxes.1 (fluxes.1 + fluxes.2)

/-- Embeds `_get_partial_fluxes_from_permeate_composition`
(pervaporation.py lines 29-51). `pp T x` abstracts
`get_nrtl_partial_pressures(T, mixture, x)` from the external `mixture`
module: the pair of partial vapour pressures at temperature `T` and
reference-component fraction `x`. -/
def get_partial_fluxes_from_permeate_composition (pp : ℚ → ℚ → ℚ × ℚ)
    (perm1 perm2 permComp feedComp Tf Tp : ℚ) : ℚ × ℚ :=
  (perm1 * ((pp Tf feedComp).1 - (pp Tp permComp).1),
   perm2 * ((pp Tf feedComp).2 - (pp Tp permComp).2))

/-- Embeds the seed fluxes of `calculate_partial_fluxes`
(pervaporation.py lines 68-71): permeance times the NRTL partial pressure
at the feed temperature and feed composition, componentwise. -/
def initial_fluxes (pp : ℚ → ℚ → ℚ × ℚ) (perm1 perm2 Tf x : ℚ) : ℚ × ℚ :=
  (perm1 * (pp Tf x).1, perm2 * (pp Tf x).2)

/-- Embeds the `while d >= precision` loop of `calculate_partial_fluxes`
(pervaporation.py lines 73-92). `d` is the maximum absolute componentwise
change of the permeate composition between successive iterations; for the
component pair `(p, 1 - p)` both componentwise changes have the same
magnitude, so `d = qabs (c' - c)`. The source loop has no iteration bound
(its own TODO notes this); `fuel` makes the embedding total, with `none`
standing for not having exited within `fuel` iterations. -/
def flux_loop (step : ℚ → ℚ × ℚ) (precision : ℚ) : ℕ → ℚ → ℚ → Option (PyResult ℚ)
  | 0, d, c => if d < precision then some (.ok c) else none
  | fuel + 1, d, c =>
    if d < precision then some (.ok c)
    else
      match get_permeate_composition_from_fluxes (step c) with
      | .error e => some (.error e)
      | .ok c' => flux_loop step precision fuel (qabs (c' - c)) c'

/-- Embeds `calculate_partial_fluxes` (pervaporation.py lines 53-100):
seed composition from `initial_fluxes`, the sentinel `d = 1`, the
fixed-point refinement, and a final flux computation at the converged
permeate composition (lines 93-100). Permeances are explicit arguments,
as the process models pass them. -/
def calculate_partial_fluxes (pp : ℚ → ℚ → ℚ × ℚ)
    (perm1 perm2 Tf Tp x precision : ℚ) (fuel : ℕ) : Option (PyResult (ℚ × ℚ)) :=
  match get_permeate_composition_from_fluxes (initial_fluxes pp perm1 perm2 Tf x) with
  | .error e => some (.error e)
  | .ok c0 =>
    (flux_loop (fun c => get_partial_fluxes_from_permeate_composition pp perm1 perm2 c x Tf Tp)
        precision fuel 1 c0).map
      (fun r => r.map
        (fun c => get_partial_fluxes_from_permeate_composition pp perm1 perm2 c x Tf Tp))

/-- Modelled from the spec: the external Thermodynamic Property Provider's
`partialPressures(mixture, temperature, composition)` (the function
`get_nrtl_partial_pressures` of the `mixture` module, absent from `src`)
returns the two partial vapour pressures under non-ideal (NRTL) activity:
modified Raoult's law `p_i = γ_i · x_i · Psat_i(T)`, with the NRTL
activity coefficients abstracted as arguments (zero binary interaction
parameters give the ideal case `γ = 1`). -/
def get_nrtl_partial_pressures (gamma1 gamma2 : ℚ → ℚ → ℚ) (psat1 psat2 : ℚ → ℚ)
    (T x : ℚ) : ℚ × ℚ :=
  (gamma1 T x * x * psat1 T, gamma2 T x * (1 - x) * psat2 T)

/-- Follows the claim's words, for comparison: a seed permeate composition
formed from component permeance times pure-component saturated vapour
pressure, as a ratio. -/
def seed_composition_pure_vapour (perm1 perm2 : ℚ) (psat1 psat2 : ℚ → ℚ) (T : ℚ) : ℚ :=
  perm1 * psat1 T / (perm1 * psat1 T + perm2 * psat2 T)

/-! ## Process models (pervaporation.py) -/

/-- Embeds the per-component mass removed in one step of both process
models (pervaporation.py lines 225-226 and 347-348):
flux × membrane area × step duration. -/
def d_mass (flux area dt : ℚ) : ℚ := flux * area * dt

/-- Embeds the recorded feed-mass sequence of both process models
(pervaporation.py line 238 and line 360):
`feed_mass[step + 1] = feed_mass[step] - d_mass_1 - d_mass_2`, with the
per-step flux pairs abstracted as a sequence (the solver produces them
from the state; the recurrence is the same in both models). -/
def feed_mass_seq (flux : ℕ → ℚ × ℚ) (area dt m0 : ℚ) : ℕ → ℚ
  | 0 => m0
  | k + 1 =>
    feed_mass_seq flux area dt m0 k
      - d_mass (flux k).1 area dt - d_mass (flux k).2 area dt

/-- Embeds one feed-state update of both process models
(pervaporation.py lines 238-244 and 360-366): the new feed mass and the
new reference-component weight fraction
`(p · m - d_mass_1) / feed_mass[step + 1]`. The source performs no
feed-sufficiency check of any kind; the only possible failure is Python's
`ZeroDivisionError` when the new feed mass is exactly zero. -/
def process_step (m p f1 f2 area dt : ℚ) : PyResult (ℚ × ℚ) :=
  let d1 := d_mass f1 area dt
  let d2 := d_mass f2 area dt
  let m' := m - d1 - d2
  (pyDiv (p * m - d1) m').map (fun p' => (m', p'))

/-! ## Heat computations (pervaporation.py) -/

/-- Component data used by the heat computations: molecular weight and
`get_vaporisation_heat` as a function of temperature
(src/component/component.py lines 14, 36-47; the Clausius-Clapeyron
closed form is external to the cited lines and kept abstract). -/
structure ComponentM where
  molecularWeight : ℚ
  vaporisationHeat : ℚ → ℚ

/-- Embeds `evaporation_heat_1` (pervaporation.py lines 178-182 and
298-302): the first component's vaporisation heat at the feed temperature
over the first component's molecular weight, times 1000. -/
def evaporation_heat_1 (first : ComponentM) (Tf : ℚ) : ℚ :=
  first.vaporisationHeat Tf / first.molecularWeight * 1000

/-- Embeds `evaporation_heat_2` (pervaporation.py lines 183-187 and
303-307): the source divides the SECOND component's vaporisation heat by
the FIRST component's molecular weight. -/
def evaporation_heat_2 (first second : ComponentM) (Tf : ℚ) : ℚ :=
  second.vaporisationHeat Tf / first.molecularWeight * 1000

/-- Embeds `condensation_heat_1` (pervaporation.py lines 188-192 and
308-312). -/
def condensation_heat_1 (first : ComponentM) (Tp : ℚ) : ℚ :=
  first.vaporisationHeat Tp / first.molecularWeight * 1000

/-- Embeds `condensation_heat_2` (pervaporation.py lines 193-197 and
313-317): the source uses the FIRST component's vaporisation heat and the
FIRST component's molecular weight (the second component appears nowhere
in the expression). -/
def condensation_heat_2 (first : ComponentM) (Tp : ℚ) : ℚ :=
  first.vaporisationHeat Tp / first.molecularWeight * 1000

/-- Follows the claim's words, for comparison: a component's own latent
heat, its vaporisation heat at the given temperature divided by its own
molecular weight (the source's `* 1000` unit factor kept). -/
def own_latent_heat (c : ComponentM) (T : ℚ) : ℚ :=
  c.vaporisationHeat T / c.molecularWeight * 1000

/-- Embeds `feed_evaporation_heat[step]` (pervaporation.py lines 228-230
and 350-352): each latent heat weighted by that component's removed mass. -/
def feed_evaporation_heat_step (first second : ComponentM) (Tf d1 d2 : ℚ) : ℚ :=
  evaporation_heat_1 first Tf * d1 + evaporation_heat_2 first second Tf * d2

/-! ## Snapshot allocation (pervaporation.py) -/

/-- Embeds the per-step container allocation of both process models
(pervaporation.py lines 160-173 and 276-289): every per-step list is
created as `[_] * number_of_steps`, i.e. with exactly `number_of_steps`
slots. -/
def allocated_snapshots (numberOfSteps : ℕ) : List ℚ :=
  List.replicate numberOfSteps 0

/-- Embeds the write target of the mass and composition updates
(pervaporation.py lines 238-244 and 360-366): step `k` writes index
`k + 1`, so the final step of an `N`-step run writes index `N`. -/
def final_write_index (numberOfSteps : ℕ) : ℕ := numberOfSteps

/-! ## Fitter (optimizer.py) -/

/-- Embeds `Measurement` (src/optimizer/optimizer.py lines 11-15). -/
structure Meas where
  x : ℚ
  t : ℚ
  p : ℚ
  deriving DecidableEq

/-- Embeds `set([m.t for m in data])` (optimizer.py line 181): the
distinct observed temperatures. -/
def unique_temperatures (data : List Meas) : List ℚ :=
  (data.map Meas.t).dedup

/-- Embeds the caller-visible effect of `fit` on its `data` argument
(optimizer.py lines 178-189): `_data = copy(data)` is a SHALLOW copy, so
`_data` shares the underlying `data` list with the caller and
`_data.append(...)` mutates it; with `include_zero=True` one synthetic
measurement `(x=component_index, t, p=0)` is appended per distinct
observed temperature. The value returned here is the caller's
`Measurements.data` list after `fit` returns. -/
def fit_caller_data_after (data : List Meas) (includeZero : Bool)
    (componentIndex : ℚ) : List Meas :=
  if includeZero then
    data ++ (unique_temperatures data).map (fun t => ⟨componentIndex, t, 0⟩)
  else data

/-- Embeds the loss of `find_best_fit` (optimizer.py line 233): the total
squared residual of a fitted curve over a measurement list. The fitted
curve is abstracted as its evaluation function. -/
def loss_on (data : List Meas) (curve : ℚ → ℚ → ℚ) : ℚ :=
  (data.map (fun d => (curve d.x d.t - d.p) ^ 2)).sum

/-- Embeds the order bound of `find_best_fit` (optimizer.py lines
207-210): `int(len(data) ** 0.5)` capped at 5. -/
def grid_power (count : ℕ) : ℕ :=
  if Nat.sqrt count < 5 then Nat.sqrt count else 5

/-- Embeds `n_tries` / `m_tries` (optimizer.py lines 212-219):
`range(power)` when the order is unpinned, else the single pinned value. -/
def order_tries (count : ℕ) : Option ℕ → List ℕ
  | none => List.range (grid_power count)
  | some k => [k]

/-- The `(n, m)` pairs visited by the two nested loops of `find_best_fit`
(optimizer.py lines 224-225), in visit order. -/
def grid_pairs : List ℕ → List ℕ → List (ℕ × ℕ)
  | [], _ => []
  | n :: ns, ms => ms.map (fun m => (n, m)) ++ grid_pairs ns ms

/-- Embeds the body of `find_best_fit`'s search loop (optimizer.py lines
221-237), threading the caller's measurement list through the mutating
`fit` calls: each candidate's loss (line 233) is evaluated over the list
AS MUTATED so far. `fitEval n m` abstracts the curve that the external
scipy Powell minimisation returns for orders `(n, m)`; a candidate is
identified by its order pair. `best` carries `(candidate, best_loss)`,
starting from `None` and `numpy.inf` (any rational loss is below it). -/
def find_best_fit_loop (fitEval : ℕ → ℕ → ℚ → ℚ → ℚ) (componentIndex : ℚ)
    (includeZero : Bool) :
    List (ℕ × ℕ) → List Meas → Option ((ℕ × ℕ) × ℚ) →
      List Meas × Option ((ℕ × ℕ) × ℚ)
  | [], data, best => (data, best)
  | nm :: rest, data, best =>
    let data' := fit_caller_data_after data includeZero componentIndex
    let l := loss_on data' (fitEval nm.1 nm.2)
    let best' :=
      match best with
      | none => some (nm, l)
      | some (b, bl) => if l < bl then some (nm, l) else some (b, bl)
    find_best_fit_loop fitEval componentIndex includeZero rest data' best'

/-- Embeds `find_best_fit` (optimizer.py lines 199-239): order grid from
`order_tries`, the search loop, returning the best candidate's order pair,
or `None` when the grid is empty (`best_curve` is never assigned). -/
def find_best_fit (fitEval : ℕ → ℕ → ℚ → ℚ → ℚ) (componentIndex : ℚ)
    (includeZero : Bool) (data : List Meas) (n m : Option ℕ) : Option (ℕ × ℕ) :=
  ((find_best_fit_loop fitEval componentIndex includeZero
      (grid_pairs (order_tries data.length n) (order_tries data.length m))
      data none).2).map Prod.fst

/-- The caller's measurement list after `find_best_fit` returns: the
mutation accumulated across all its `fit` calls. -/
def find_best_fit_final_data (fitEval : ℕ → ℕ → ℚ → ℚ → ℚ) (componentIndex : ℚ)
    (includeZero : Bool) (data : List Meas) (n m : Option ℕ) : List Meas :=
  (find_best_fit_loop fitEval componentIndex includeZero
      (grid_pairs (order_tries data.length n) (order_tries data.length m))
      data none).1

/-- Four identical measurements at one temperature: the concrete input of
the residual-selection divergence. -/
def dataC8 : List Meas :=
  [⟨1/2, 300, 1⟩, ⟨1/2, 300, 1⟩, ⟨1/2, 300, 1⟩, ⟨1/2, 300, 1⟩]

/-- A possible family of fitted curves (the external Powell fit output,
abstracted): the order-(0,0) candidate fits the four original points
perfectly but misses the synthetic zero-boundary point, the order-(0,1)
candidate fits the originals slightly worse but vanishes at the boundary,
and all other orders fit poorly. -/
def fitEvalC8 : ℕ → ℕ → ℚ → ℚ → ℚ := fun n m x _ =>
  if n = 0 ∧ m = 0 then 1 else if n = 0 ∧ m = 1 then 3 / 2 * x else 100

/-! ## Claim C1: per-step mass balance and monotone feed mass -/

/-- Claim C1: in both process models the recorded feed mass obeys
`feed_mass[k + 1] = feed_mass[k] - d_mass_1 - d_mass_2` exactly, each
removed mass being that component's partial flux times the membrane area
times the step duration; consequently (for the physical regime of
nonnegative fluxes, membrane area and step duration) the feed-mass
sequence is non-increasing across the whole trajectory. -/
theorem feed_mass_balance (flux : ℕ → ℚ × ℚ) (area dt m0 : ℚ) :
    (∀ k, feed_mass_seq flux area dt m0 (k + 1)
        = feed_mass_seq flux area dt m0 k
          - d_mass (flux k).1 area dt - d_mass (flux k).2 area dt) ∧
    ((∀ k, 0 ≤ (flux k).1 ∧ 0 ≤ (flux k).2) → 0 ≤ area → 0 ≤ dt →
      ∀ j k, j ≤ k →
        feed_mass_seq flux area dt m0 k ≤ feed_mass_seq flux area dt m0 j) := by
  constructor
  · intro k
    rfl
  · intro hf ha hd j k hjk
    have hstep : ∀ i, feed_mass_seq flux area dt m0 (i + 1)
        ≤ feed_mass_seq flux area dt m0 i := by
      intro i
      have h1 : 0 ≤ d_mass (flux i).1 area dt := by
        unfold d_mass
        exact mul_nonneg (mul_nonneg (hf i).1 ha) hd
      have h2 : 0 ≤ d_mass (flux i).2 area dt := by
        unfold d_mass
        exact mul_nonneg (mul_nonneg (hf i).2 ha) hd
      have hrec : feed_mass_seq flux area dt m0 (i + 1)
          = feed_mass_seq flux area dt m0 i
            - d_mass (flux i).1 area dt - d_mass (flux i).2 area dt := rfl
      rw [hrec]
      linarith
    induction hjk with
    | refl => exact le_refl _
    | step _ ih => exact le_trans (hstep _) ih

/-- Claim C1 witness: the theorem applied to a concrete run with fluxes
`(1, 2)`, area `2`, step duration `1/2` and initial mass `10`. -/
theorem feed_mass_balance_witness :
    (∀ k : ℕ, 0 ≤ ((fun _ : ℕ => ((1 : ℚ), (2 : ℚ))) k).1
        ∧ 0 ≤ ((fun _ : ℕ => ((1 : ℚ), (2 : ℚ))) k).2) ∧
    feed_mass_seq (fun _ => (1, 2)) 2 (1/2) 10 1
      = feed_mass_seq (fun _ => (1, 2)) 2 (1/2) 10 0
        - d_mass 1 2 (1/2) - d_mass 2 2 (1/2) ∧
    feed_mass_seq (fun _ => (1, 2)) 2 (1/2) 10 2
      ≤ feed_mass_seq (fun _ => (1, 2)) 2 (1/2) 10 0 :=
  ⟨fun _ => ⟨by norm_num, by norm_num⟩,
   (feed_mass_balance (fun _ => (1, 2)) 2 (1/2) 10).1 0,
   (feed_mass_balance (fun _ => (1, 2)) 2 (1/2) 10).2
     (fun _ => ⟨by norm_num, by norm_num⟩) (by norm_num) (by norm_num)
     0 2 (by norm_num)⟩

/-! ## Claim C2: zero total flux -/

/-- Claim C2 counterexample: at the zero-flux pair `(0, 0)` the permeate
composition derivation fails with a plain `ZeroDivisionError` (with numpy
operands it would instead propagate NaN silently); it does not signal the
distinct `DegenerateFlux` error the claim asserts — no such error exists
anywhere in the source. -/
theorem zero_total_flux_counterexample :
    get_permeate_composition_from_fluxes (0, 0)
      = PyResult.error PyError.zeroDivisionError ∧
    PyError.zeroDivisionError ≠ PyError.degenerateFlux :=
  ⟨by norm_num [get_permeate_composition_from_fluxes, pyDiv], by decide⟩

/-- Claim C2 amended: deriving a permeate composition from a pair of
partial fluxes whose total is zero is unguarded in the source: with
Python float operands it raises a plain `ZeroDivisionError` (and with
numpy operands it propagates NaN); no distinct `DegenerateFlux` error is
defined or signalled. -/
theorem zero_total_flux_zero_division (f1 f2 : ℚ) (h : f1 + f2 = 0) :
    get_permeate_composition_from_fluxes (f1, f2)
      = PyResult.error PyError.zeroDivisionError := by
  simp [get_permeate_composition_from_fluxes, pyDiv, h]

/-- Claim C2 amended witness: the amended theorem at the concrete
zero-total pair `(2, -2)`. -/
theorem zero_total_flux_zero_division_witness :
    (2 : ℚ) + (-2) = 0 ∧
    get_permeate_composition_from_fluxes (2, -2)
      = PyResult.error PyError.zeroDivisionError :=
  ⟨by norm_num, zero_total_flux_zero_division 2 (-2) (by norm_num)⟩

/-! ## Claim C3: no InsufficientFeed condition -/

/-- Claim C3 counterexample: a step that removes more mass than remains
(feed mass `1`, removed `2 + 1 = 3`) neither fails with an
`InsufficientFeed` condition nor aborts the run: the update returns
normally, recording the NEGATIVE feed mass `-2`, and the run continues. -/
theorem over_step_continues_counterexample :
    process_step 1 (1/10) 2 1 1 1 = PyResult.ok (-2, 19/20) ∧
    ((-2 : ℚ) < 0) :=
  ⟨by norm_num [process_step, d_mass, pyDiv, PyResult.map], by norm_num⟩

/-- Claim C3 amended: the feed-mass update of both process models is
unconditional — no step ever fails with an `InsufficientFeed` condition
(the only possible failure is Python's `ZeroDivisionError` when the new
feed mass is exactly zero); a step that over-draws the feed records a
negative feed mass and the run is not aborted. -/
theorem process_step_never_insufficient_feed (m p f1 f2 area dt : ℚ) :
    process_step m p f1 f2 area dt ≠ PyResult.error PyError.insufficientFeed := by
  unfold process_step
  by_cases hz : m - d_mass f1 area dt - d_mass f2 area dt = 0 <;>
    simp [pyDiv, hz, PyResult.map]

/-! ## Claim C4: snapshot counts -/

/-- Claim C4 refutation at the test scenario's 50-step run: every
per-step container is allocated with exactly 50 slots, so the final
step's write at index 50 is out of bounds (an `IndexError` in Python),
and even the allocated length is not the claimed `N + 1 = 51`. -/
theorem snapshot_allocation_out_of_bounds :
    (allocated_snapshots 50).length = 50 ∧
    (allocated_snapshots 50).get? (final_write_index 50) = none ∧
    (allocated_snapshots 50).length ≠ 50 + 1 := by
  decide

/-! ## Claim C5: latent heats of the second component -/

/-- Claim C5 refutation at a concrete component pair (molecular weights
18 and 46, vaporisation heats 40 and 42): the source computes
`evaporation_heat_2` by dividing the second component's vaporisation heat
by the FIRST component's molecular weight, and `condensation_heat_2` from
the FIRST component's vaporisation heat and molecular weight — both
differ from the claimed own-latent-heat formula — while the first
component's heats and the mass-removed weighting do follow the claim. -/
theorem second_component_latent_heat_bug :
    evaporation_heat_2 ⟨18, fun _ => 40⟩ ⟨46, fun _ => 42⟩ 350
      ≠ own_latent_heat ⟨46, fun _ => 42⟩ 350 ∧
    condensation_heat_2 ⟨18, fun _ => 40⟩ 298
      ≠ own_latent_heat ⟨46, fun _ => 42⟩ 298 ∧
    evaporation_heat_1 ⟨18, fun _ => 40⟩ 350
      = own_latent_heat ⟨18, fun _ => 40⟩ 350 ∧
    feed_evaporation_heat_step ⟨18, fun _ => 40⟩ ⟨46, fun _ => 42⟩ 350 3 5
      = evaporation_heat_1 ⟨18, fun _ => 40⟩ 350 * 3
        + evaporation_heat_2 ⟨18, fun _ => 40⟩ ⟨46, fun _ => 42⟩ 350 * 5 := by
  refine ⟨?_, ?_, rfl, rfl⟩ <;>
    norm_num [evaporation_heat_2, condensation_heat_2, own_latent_heat]

/-! ## Claim C6: the iteration seed -/

/-- Claim C6 counterexample: with ideal NRTL activity (zero binary
interaction parameters, so both activity coefficients are 1), pure
saturated pressures 4 and 2, equal permeances and feed fraction `1/4`,
the source's seed permeate composition is `2/5` — it is formed from the
NRTL partial pressures AT THE FEED COMPOSITION — whereas a seed formed
from pure-component vapour-pressure ratios would be `2/3`. -/
theorem seed_not_pure_vapour_counterexample :
    get_permeate_composition_from_fluxes
        (initial_fluxes
          (get_nrtl_partial_pressures (fun _ _ => 1) (fun _ _ => 1)
            (fun _ => 4) (fun _ => 2))
          1 1 350 (1/4))
      = PyResult.ok (2/5) ∧
    seed_composition_pure_vapour 1 1 (fun _ => 4) (fun _ => 2) 350 = 2/3 ∧
    ((2 : ℚ)/5) ≠ 2/3 :=
  ⟨by norm_num [get_permeate_composition_from_fluxes, initial_fluxes,
      get_nrtl_partial_pressures, pyDiv],
   by norm_num [seed_composition_pure_vapour],
   by norm_num⟩

/-- Claim C6 amended: `calculate_partial_fluxes` seeds its fixed-point
iteration with a permeate-composition estimate formed from each
component's permeance times that component's NRTL partial pressure at the
feed temperature and feed composition (no permeate-side pressure is
subtracted — the ideal evacuated-permeate case), and the iterative
refinement starts from exactly that estimate. -/
theorem calculate_partial_fluxes_seed (pp : ℚ → ℚ → ℚ × ℚ)
    (perm1 perm2 Tf x : ℚ)
    (h : perm1 * (pp Tf x).1 + perm2 * (pp Tf x).2 ≠ 0) :
    get_permeate_composition_from_fluxes (initial_fluxes pp perm1 perm2 Tf x)
      = PyResult.ok (perm1 * (pp Tf x).1
          / (perm1 * (pp Tf x).1 + perm2 * (pp Tf x).2)) ∧
    ∀ Tp precision fuel,
      calculate_partial_fluxes pp perm1 perm2 Tf Tp x precision fuel
        = (flux_loop
              (fun c => get_partial_fluxes_from_permeate_composition pp perm1 perm2 c x Tf Tp)
              precision fuel 1
              (perm1 * (pp Tf x).1
                / (perm1 * (pp Tf x).1 + perm2 * (pp Tf x).2))).map
            (fun r => r.map
              (fun c => get_partial_fluxes_from_permeate_composition pp perm1 perm2 c x Tf Tp)) := by
  have hseed : get_permeate_composition_from_fluxes (initial_fluxes pp perm1 perm2 Tf x)
      = PyResult.ok (perm1 * (pp Tf x).1
          / (perm1 * (pp Tf x).1 + perm2 * (pp Tf x).2)) := by
    simp [get_permeate_composition_from_fluxes, initial_fluxes, pyDiv, h]
  refine ⟨hseed, fun Tp precision fuel => ?_⟩
  unfold calculate_partial_fluxes
  rw [hseed]

/-- Claim C6 amended witness: the amended theorem at a concrete pressure
provider returning `(3, 1)`, where the seed composition is `3/4`. -/
theorem calculate_partial_fluxes_seed_witness :
    (1 : ℚ) * ((fun _ _ : ℚ => ((3 : ℚ), (1 : ℚ))) 300 (1/3)).1
        + 1 * ((fun _ _ : ℚ => ((3 : ℚ), (1 : ℚ))) 300 (1/3)).2 ≠ 0 ∧
    get_permeate_composition_from_fluxes
        (initial_fluxes (fun _ _ => (3, 1)) 1 1 300 (1/3)) = PyResult.ok (3/4) :=
  ⟨by norm_num,
   by
    have h := (calculate_partial_fluxes_seed (fun _ _ => (3, 1)) 1 1 300 (1/3)
      (by norm_num)).1
    norm_num at h
    exact h⟩

/-! ## Claim C7: convergence criterion and returned fluxes -/

/-- Helper for Claim C7: if the embedded `while` loop exits with a
composition `cf`, then either no iteration ran (the initial sentinel was
already below the precision and `cf` is the starting composition), or
`cf` was produced by an iteration whose maximum absolute composition
change from its predecessor is below the precision. -/
theorem flux_loop_exit_characterisation (step : ℚ → ℚ × ℚ) (precision : ℚ) :
    ∀ (fuel : ℕ) (d c cf : ℚ),
      flux_loop step precision fuel d c = some (PyResult.ok cf) →
        (d < precision ∧ cf = c) ∨
        (∃ cp, get_permeate_composition_from_fluxes (step cp) = PyResult.ok cf ∧
          qabs (cf - cp) < precision) := by
  intro fuel
  induction fuel with
  | zero =>
    intro d c cf h
    by_cases hd : d < precision
    · simp only [flux_loop, if_pos hd, Option.some.injEq] at h
      exact Or.inl ⟨hd, by injection h with h2; exact h2.symm⟩
    · simp only [flux_loop, if_neg hd] at h
      exact absurd h (by simp)
  | succ n ih =>
    intro d c cf h
    by_cases hd : d < precision
    · simp only [flux_loop, if_pos hd, Option.some.injEq] at h
      exact Or.inl ⟨hd, by injection h with h2; exact h2.symm⟩
    · simp only [flux_loop, if_neg hd] at h
      cases hg : get_permeate_composition_from_fluxes (step c) with
      | error e =>
        rw [hg] at h
        simp at h
      | ok c' =>
        rw [hg] at h
        rcases ih (qabs (c' - c)) c' cf h with ⟨hlt, hcc⟩ | ⟨cp, hcp, hcl⟩
        · subst hcc
          exact Or.inr ⟨c, hg, hlt⟩
        · exact Or.inr ⟨cp, hcp, hcl⟩

/-- Claim C7: whenever `calculate_partial_fluxes` returns a flux pair,
its fixed-point iteration stopped exactly on the convergence test — the
returned permeate composition is either the seed (when the precision
exceeds the initial sentinel `d = 1`, so no iteration ran) or an iterate
whose maximum absolute componentwise change from its predecessor is below
the given precision — and the returned pair is the partial fluxes
recomputed at that converged permeate composition. -/
theorem calculate_partial_fluxes_convergence (pp : ℚ → ℚ → ℚ × ℚ)
    (perm1 perm2 Tf Tp x precision : ℚ) (fuel : ℕ) (F : ℚ × ℚ)
    (h : calculate_partial_fluxes pp perm1 perm2 Tf Tp x precision fuel
        = some (PyResult.ok F)) :
    ∃ c, F = get_partial_fluxes_from_permeate_composition pp perm1 perm2 c x Tf Tp ∧
      ((1 < precision ∧
          get_permeate_composition_from_fluxes (initial_fluxes pp perm1 perm2 Tf x)
            = PyResult.ok c) ∨
       (∃ cp, get_permeate_composition_from_fluxes
            (get_partial_fluxes_from_permeate_composition pp perm1 perm2 cp x Tf Tp)
            = PyResult.ok c ∧
          qabs (c - cp) < precision)) := by
  unfold calculate_partial_fluxes at h
  cases hseed : get_permeate_composition_from_fluxes (initial_fluxes pp perm1 perm2 Tf x) with
  | error e =>
    rw [hseed] at h
    simp at h
  | ok c0 =>
    rw [hseed] at h
    simp only [Option.map_eq_some'] at h
    rcases h with ⟨r, hr, hmap⟩
    cases r with
    | error e => simp [PyResult.map] at hmap
    | ok cf =>
      have hF : F = get_partial_fluxes_from_permeate_composition pp perm1 perm2 cf x Tf Tp := by
        simp only [PyResult.map] at hmap
        injection hmap with h2
        exact h2.symm
      rcases flux_loop_exit_characterisation _ precision fuel 1 c0 cf hr with
        ⟨hd, hcc⟩ | ⟨cp, hcp, hcl⟩
      · subst hcc
        exact ⟨cf, hF, Or.inl ⟨hd, rfl⟩⟩
      · exact ⟨cf, hF, Or.inr ⟨cp, hcp, hcl⟩⟩

/-- Claim C7 witness: a concrete solver run (pressure provider `(T, T)`,
permeances 1, feed at 4 K and permeate at 1 K, precision `1/100`) that
converges and returns the flux pair `(3, 3)`. -/
theorem calculate_partial_fluxes_convergence_witness :
    calculate_partial_fluxes (fun T _ => (T, T)) 1 1 4 1 (1/2) (1/100) 2
      = some (PyResult.ok (3, 3)) ∧
    ∃ c, ((3 : ℚ), (3 : ℚ))
        = get_partial_fluxes_from_permeate_composition (fun T _ => (T, T)) 1 1 c (1/2) 4 1 ∧
      ((1 < (1/100 : ℚ) ∧
          get_permeate_composition_from_fluxes
            (initial_fluxes (fun T _ => (T, T)) 1 1 4 (1/2)) = PyResult.ok c) ∨
       (∃ cp, get_permeate_composition_from_fluxes
            (get_partial_fluxes_from_permeate_composition (fun T _ => (T, T)) 1 1 cp (1/2) 4 1)
            = PyResult.ok c ∧
          qabs (c - cp) < 1/100)) :=
  ⟨by norm_num [calculate_partial_fluxes, initial_fluxes,
      get_permeate_composition_from_fluxes, pyDiv,
      get_partial_fluxes_from_permeate_composition, flux_loop, qabs,
      PyResult.map, Option.map],
   calculate_partial_fluxes_convergence (fun T _ => (T, T)) 1 1 4 1 (1/2) (1/100) 2 (3, 3)
     (by norm_num [calculate_partial_fluxes, initial_fluxes,
        get_permeate_composition_from_fluxes, pyDiv,
        get_partial_fluxes_from_permeate_composition, flux_loop, qabs,
        PyResult.map, Option.map])⟩


/-! ## Claim C8: model-order search and its selection metric -/

set_option maxHeartbeats 4000000 in
/-- Claim C8 refutation at a concrete run: four measurements, orders
unpinned, `include_zero` left at its default `True`. The grid is the full
`[0, 1] × [0, 1]` (it contains `(0, 0)`), but because each `fit` call
mutates the shared measurement list (shallow `copy` + `append`), every
candidate's loss is evaluated over a progressively augmented list: the
search returns the order-(0, 1) candidate although its total squared
residual over the ORIGINAL set, `1/4`, is strictly larger than the
residual `0` of the order-(0, 0) candidate, which the grid contains; the
caller's list has grown from 4 to 8 entries by the end of the search. -/
theorem find_best_fit_residual_bug :
    (0, 0) ∈ grid_pairs (order_tries dataC8.length none) (order_tries dataC8.length none) ∧
    find_best_fit fitEvalC8 0 true dataC8 none none = some (0, 1) ∧
    loss_on dataC8 (fitEvalC8 0 1) = 1/4 ∧
    loss_on dataC8 (fitEvalC8 0 0) = 0 ∧
    ¬ ((1 : ℚ)/4 ≤ 0) ∧
    dataC8.length = 4 ∧
    (find_best_fit_final_data fitEvalC8 0 true dataC8 none none).length = 8 := by
  have hsq : Nat.sqrt 4 = 2 := Nat.sqrt_eq 2
  have hpow : grid_power (4 : ℕ) = 2 := by
    unfold grid_power
    rw [hsq]
    decide
  have hranges : order_tries dataC8.length none = [0, 1] := by
    show order_tries (4 : ℕ) none = [0, 1]
    simp only [order_tries, hpow]
    decide
  have hgrid : grid_pairs (order_tries dataC8.length none) (order_tries dataC8.length none)
      = [(0, 0), (0, 1), (1, 0), (1, 1)] := by
    rw [hranges]
    decide
  refine ⟨?_, ?_, ?_, ?_, ?_, rfl, ?_⟩
  · rw [hgrid]
    decide
  · rw [find_best_fit.eq_def, hgrid]
    norm_num [find_best_fit_loop, fit_caller_data_after, unique_temperatures,
      List.dedup, loss_on, fitEvalC8, dataC8]
  · norm_num [loss_on, fitEvalC8, dataC8]
  · norm_num [loss_on, fitEvalC8, dataC8]
  · norm_num
  · rw [find_best_fit_final_data.eq_def, hgrid]
    norm_num [find_best_fit_loop, fit_caller_data_after, unique_temperatures,
      List.dedup, loss_on, fitEvalC8, dataC8]

/-! ## Claim C9: fit's effect on the caller's measurements -/

/-- Claim C9 refutation at a concrete call
(`fit` on one measurement with `include_zero=True`, component index 0):
because `copy(data)` is shallow and `append` mutates the shared list, the
caller's `Measurements` has gained the synthetic zero measurement
`(x=0, t=330, p=0)` after `fit` returns, and a residual computed over the
caller's list after the call differs from the residual over the original
measurement set. -/
theorem fit_mutates_caller_measurements :
    fit_caller_data_after [⟨7/10, 330, 2⟩] true 0
      = [⟨7/10, 330, 2⟩, ⟨0, 330, 0⟩] ∧
    fit_caller_data_after [⟨7/10, 330, 2⟩] true 0 ≠ [⟨7/10, 330, 2⟩] ∧
    loss_on (fit_caller_data_after [⟨7/10, 330, 2⟩] true 0) (fun _ _ => 2)
      ≠ loss_on [⟨7/10, 330, 2⟩] (fun _ _ => 2) := by
  refine ⟨?_, ?_, ?_⟩ <;>
    norm_num [fit_caller_data_after, unique_temperatures, List.dedup, loss_on]

/-! ## Claim C10: empty order grid -/

/-- Claim C10: whenever the searched order grid is empty — in particular
for the empty measurement set with both orders unpinned, where the order
bound `min(5, isqrt(len(data)))` is 0 — `find_best_fit` performs no fit
at all (the caller's measurement list is untouched) and returns `None`
rather than raising an error. -/
theorem find_best_fit_empty_grid (fitEval : ℕ → ℕ → ℚ → ℚ → ℚ)
    (componentIndex : ℚ) (includeZero : Bool) (data : List Meas)
    (n m : Option ℕ)
    (h : grid_pairs (order_tries data.length n) (order_tries data.length m) = []) :
    find_best_fit fitEval componentIndex includeZero data n m = none ∧
    find_best_fit_final_data fitEval componentIndex includeZero data n m = data := by
  unfold find_best_fit find_best_fit_final_data
  rw [h]
  exact ⟨rfl, rfl⟩

/-- Claim C10 witness: the theorem at the empty measurement set with both
orders unpinned, whose searched grid is empty. -/
theorem find_best_fit_empty_grid_witness :
    grid_pairs (order_tries (List.length ([] : List Meas)) none)
        (order_tries (List.length ([] : List Meas)) none) = [] ∧
    find_best_fit (fun _ _ _ _ => 0) 0 true ([] : List Meas) none none = none ∧
    find_best_fit_final_data (fun _ _ _ _ => 0) 0 true ([] : List Meas) none none = [] :=
  ⟨by simp [grid_pairs, order_tries, grid_power, Nat.sqrt_zero],
   (find_best_fit_empty_grid (fun _ _ _ _ => 0) 0 true [] none none
     (by simp [grid_pairs, order_tries, grid_power, Nat.sqrt_zero])).1,
   (find_best_fit_empty_grid (fun _ _ _ _ => 0) 0 true [] none none
     (by simp [grid_pairs, order_tries, grid_power, Nat.sqrt_zero])).2⟩
